import Mathlib

/-!
Verification of the osu-db binary codec layer (src/listing.rs, src/replay.rs).

The byte stream is modelled as a `List Nat` (each element one byte of the
stream); decoders are functions `List Nat → Option (List Nat × α)` returning
the unconsumed remainder together with the decoded value (mirroring nom's
`IResult`, with `none` standing for any decode error), and writers are pure
functions producing the emitted byte list.

IEEE-754 values (`f32`, `f64`) are represented by their bit patterns (a `Nat`
below `2^32` resp. `2^64`); the numeric conversions performed by the Rust
code (`u8 as f32`, `f32 as u8`, `f32 as f64`, `f64 as f32`) are implemented
explicitly on bit patterns below.
-/

namespace OsuDb

/-- A decoder over the byte stream: input bytes to (remainder, value), or a
decode error. -/
abbrev Dec (α : Type) : Type := List Nat → Option (List Nat × α)

/-! ## Primitive codec
Modelled from the spec: the primitive binary reading/writing utilities
(fixed-width little-endian integers, floats-as-bit-patterns, booleans,
64-bit tick timestamps, presence-tagged length-prefixed strings) are
pre-built utilities of the crate that are not part of the two given source
files; they follow section 6 of the spec ("EXTERNAL INTERFACES"). -/

/-- Modelled from the spec: read one byte. -/
def byte : Dec Nat
  | [] => none
  | b :: rest => some (rest, b)

/-- Modelled from the spec: read a little-endian 16-bit unsigned integer. -/
def short : Dec Nat
  | b0 :: b1 :: rest => some (rest, b0 + 256 * b1)
  | _ => none

/-- Modelled from the spec: read a little-endian 32-bit unsigned integer. -/
def int : Dec Nat
  | b0 :: b1 :: b2 :: b3 :: rest =>
      some (rest, b0 + 256 * b1 + 65536 * b2 + 16777216 * b3)
  | _ => none

/-- Modelled from the spec: read a little-endian 64-bit unsigned integer. -/
def long : Dec Nat
  | b0 :: b1 :: b2 :: b3 :: b4 :: b5 :: b6 :: b7 :: rest =>
      some (rest, b0 + 256 * b1 + 65536 * b2 + 16777216 * b3
        + 4294967296 * b4 + 1099511627776 * b5 + 281474976710656 * b6
        + 72057594037927936 * b7)
  | _ => none

/-- Modelled from the spec: read a 32-bit float; we keep its bit pattern. -/
def single : Dec Nat := int

/-- Modelled from the spec: read a 64-bit float; we keep its bit pattern. -/
def double : Dec Nat := long

/-- Modelled from the spec: read a 64-bit tick-count timestamp. -/
def datetime : Dec Nat := long

/-- Modelled from the spec: read a boolean byte (0 = false, nonzero = true). -/
def boolean : Dec Bool
  | [] => none
  | b :: rest => some (rest, b != 0)

/-- Modelled from the spec: decode the variable-length unsigned integer used
as a string length prefix (7 bits per byte, high bit = continuation). -/
def uleb : Dec Nat
  | [] => none
  | b :: rest =>
    if b < 128 then some (rest, b)
    else
      match uleb rest with
      | none => none
      | some (r, n) => some (r, (b - 128) + 128 * n)

/-- Modelled from the spec: read an optional string: one presence-tag byte
(0 = absent, nonzero = present), then a variable-length length prefix and
that many content bytes. Strings are kept as raw byte lists. -/
def opt_string : Dec (Option (List Nat))
  | [] => none
  | b :: rest =>
    if b = 0 then some (rest, none)
    else
      match uleb rest with
      | none => none
      | some (r, n) => if n ≤ r.length then some (r.drop n, some (r.take n)) else none

/-- nom's `tag!`: require the stream to start with the given literal bytes. -/
def tagSeq (pat : List Nat) : Dec Unit := fun bytes =>
  match pat, bytes with
  | [], _ => some (bytes, ())
  | _ :: _, [] => none
  | t :: ts, b :: rest => if b = t then tagSeq ts rest else none

/-- nom's `map_opt!`: run a decoder and a fallible conversion on its value. -/
def map_opt {α β : Type} (p : Dec α) (f : α → Option β) : Dec β := fun bytes =>
  match p bytes with
  | none => none
  | some (r, a) =>
    match f a with
    | none => none
    | some v => some (r, v)

/-- nom's `cond!`: run a decoder only when the condition holds. -/
def condP {α : Type} (c : Prop) [Decidable c] (p : Dec α) : Dec (Option α) := fun bytes =>
  if c then
    match p bytes with
    | none => none
    | some (r, a) => some (r, some a)
  else some (bytes, none)

/-- Read exactly `n` values with decoder `p`. -/
def readN {α : Type} (p : Dec α) : Nat → Dec (List α)
  | 0, bytes => some (bytes, [])
  | n + 1, bytes =>
    match p bytes with
    | none => none
    | some (r, a) =>
      match readN p n r with
      | none => none
      | some (r2, l) => some (r2, a :: l)

/-- nom's `length_count!(int, p)`: a 32-bit element count, then that many
elements. -/
def lengthCount {α : Type} (p : Dec α) : Dec (List α) := fun bytes =>
  match int bytes with
  | none => none
  | some (r, n) => readN p n r

/-! ## Primitive writers -/

/-- Modelled from the spec: write one byte. -/
def wrU8 (n : Nat) : List Nat := [n % 256]

/-- Modelled from the spec: write a little-endian 16-bit unsigned integer. -/
def wrU16 (n : Nat) : List Nat := [n % 256, n / 256 % 256]

/-- Modelled from the spec: write a little-endian 32-bit unsigned integer. -/
def wrU32 (n : Nat) : List Nat := [n % 256, n / 256 % 256, n / 65536 % 256, n / 16777216 % 256]

/-- Modelled from the spec: write a little-endian 64-bit unsigned integer. -/
def wrU64 (n : Nat) : List Nat :=
  [n % 256, n / 256 % 256, n / 65536 % 256, n / 16777216 % 256,
   n / 4294967296 % 256, n / 1099511627776 % 256, n / 281474976710656 % 256,
   n / 72057594037927936 % 256]

/-- Modelled from the spec: write a boolean (the writer always emits 0/1). -/
def wrBool (b : Bool) : List Nat := [if b then 1 else 0]

/-- Fuel-bounded worker for the variable-length integer writer (the fuel is
only a structural-termination device; `wrUleb` always supplies enough). -/
def ulebW : Nat → Nat → List Nat
  | 0, n => [n % 128]
  | fuel + 1, n => if n < 128 then [n] else (n % 128 + 128) :: ulebW fuel (n / 128)

/-- Modelled from the spec: write the variable-length unsigned integer. -/
def wrUleb (n : Nat) : List Nat := ulebW (n + 1) n

/-- Modelled from the spec: write an optional string (presence-tag byte,
then length prefix and content when present). -/
def wrOptString : Option (List Nat) → List Nat
  | none => [0]
  | some s => 11 :: (wrUleb s.length ++ s)

/-- Write each element of a list in order (no prefix). -/
def wrList {α : Type} (enc : α → List Nat) : List α → List Nat
  | [] => []
  | a :: l => enc a ++ wrList enc l

/-- `PrefixedList`: a 32-bit element count followed by the elements. -/
def wrPrefixedList {α : Type} (enc : α → List Nat) (l : List α) : List Nat :=
  wrU32 l.length ++ wrList enc l

/-! ## IEEE-754 bit-pattern conversions

These implement, on raw bit patterns, the four numeric casts the Rust source
performs: `u8 as f32` (exact widening of a small integer), `f32 as u8`
(truncation toward zero saturating to 0/255, NaN to 0), `f32 as f64` (exact
widening), and `f64 as f32` (round to nearest, ties to even, overflow to
infinity). -/

/-- Structural base-2 logarithm (fuel-bounded; the fuel is a termination
device and `nlog2` always supplies enough). -/
def log2W : Nat → Nat → Nat
  | 0, _ => 0
  | fuel + 1, n => if n < 2 then 0 else log2W fuel (n / 2) + 1

/-- Base-2 logarithm (floor), kernel-computable. -/
def nlog2 (n : Nat) : Nat := log2W n n

/-- Round `x / 2^k` to the nearest integer, ties to even. -/
def roundEven (x k : Nat) : Nat :=
  if k = 0 then x
  else
    let q := x / 2 ^ k
    let r := x % 2 ^ k
    let half := 2 ^ (k - 1)
    if r > half then q + 1 else if r < half then q else if q % 2 = 1 then q + 1 else q

/-- Rust `u8 as f32` on bit patterns: the IEEE single-precision pattern of the
integer `b` (exact for all bytes). -/
def u8ToF32bits (b : Nat) : Nat :=
  if b = 0 then 0
  else
    let e := nlog2 b
    (127 + e) * 2 ^ 23 + (b - 2 ^ e) * 2 ^ (23 - e)

/-- Rust `f32 as u8` on bit patterns: truncate toward zero, saturate to
`[0, 255]`, NaN to 0. -/
def f32bitsToU8 (p : Nat) : Nat :=
  let s := p / 2 ^ 31 % 2
  let e := p / 2 ^ 23 % 256
  let m := p % 2 ^ 23
  if e = 255 then (if m = 0 then (if s = 1 then 0 else 255) else 0)
  else if s = 1 then 0
  else if e < 127 then 0
  else if 135 ≤ e then 255
  else (2 ^ 23 + m) / 2 ^ (23 - (e - 127))

/-- Rust `f32 as f64` on bit patterns: exact widening (normals, subnormals,
zeros, infinities and NaNs). -/
def f32to64 (p : Nat) : Nat :=
  let s := p / 2 ^ 31 % 2
  let e := p / 2 ^ 23 % 256
  let m := p % 2 ^ 23
  if e = 255 then s * 2 ^ 63 + 2047 * 2 ^ 52 + m * 2 ^ 29
  else if e = 0 then
    if m = 0 then s * 2 ^ 63
    else
      let k := nlog2 m + 1
      s * 2 ^ 63 + (k + 873) * 2 ^ 52 + (m * 2 ^ (53 - k) - 2 ^ 52)
  else s * 2 ^ 63 + (e + 896) * 2 ^ 52 + m * 2 ^ 29

/-- Rust `f64 as f32` on bit patterns: round to nearest (ties to even),
overflow saturates to infinity, f64 subnormals round to zero, NaN maps to a
quiet NaN. -/
def f64to32 (p : Nat) : Nat :=
  let s := p / 2 ^ 63 % 2
  let e := p / 2 ^ 52 % 2048
  let m := p % 2 ^ 52
  if e = 2047 then
    if m = 0 then s * 2 ^ 31 + 255 * 2 ^ 23
    else s * 2 ^ 31 + 255 * 2 ^ 23 + (2 ^ 22 ||| m / 2 ^ 29)
  else if e = 0 then s * 2 ^ 31
  else
    let sig := 2 ^ 52 + m
    if 1151 ≤ e then s * 2 ^ 31 + 255 * 2 ^ 23
    else if 897 ≤ e then
      let sig32 := roundEven sig 29
      if sig32 = 2 ^ 24 then
        if e = 1150 then s * 2 ^ 31 + 255 * 2 ^ 23
        else s * 2 ^ 31 + (e - 896 + 1) * 2 ^ 23
      else s * 2 ^ 31 + (e - 896) * 2 ^ 23 + (sig32 - 2 ^ 23)
    else s * 2 ^ 31 + roundEven sig (926 - e)

/-! ## Epoch constants (src/listing.rs lines 8-10) -/

def CHANGE_20140609 : Nat := 20140609
def CHANGE_20191106 : Nat := 20191106
def CHANGE_20250107 : Nat := 20250107

/-! ## Listing data model (src/listing.rs) -/

/-- `RankedStatus` (src/listing.rs lines 144-153). -/
inductive RankedStatus : Type
  | Unknown
  | Unsubmitted
  | PendingWipGraveyard
  | Ranked
  | Approved
  | Qualified
  | Loved
deriving DecidableEq

/-- `RankedStatus::from_raw` (src/listing.rs lines 155-167). -/
def RankedStatus.from_raw (b : Nat) : Option RankedStatus :=
  match b with
  | 0 => some .Unknown
  | 1 => some .Unsubmitted
  | 2 => some .PendingWipGraveyard
  | 4 => some .Ranked
  | 5 => some .Approved
  | 6 => some .Qualified
  | 7 => some .Loved
  | _ => none

/-- `RankedStatus::raw` (src/listing.rs lines 169-180). -/
def RankedStatus.raw : RankedStatus → Nat
  | .Unknown => 0
  | .Unsubmitted => 1
  | .PendingWipGraveyard => 2
  | .Ranked => 4
  | .Approved => 5
  | .Qualified => 6
  | .Loved => 7

/-- `Grade` (src/listing.rs lines 217-234). -/
inductive Grade : Type
  | SSPlus
  | SPlus
  | SS
  | S
  | A
  | B
  | C
  | D
  | Unplayed
deriving DecidableEq

/-- `Grade::raw` (src/listing.rs lines 236-249). -/
def Grade.raw : Grade → Nat
  | .SSPlus => 0
  | .SPlus => 1
  | .SS => 2
  | .S => 3
  | .A => 4
  | .B => 5
  | .C => 6
  | .D => 7
  | .Unplayed => 9

/-- `Grade::from_raw` (src/listing.rs lines 250-264). -/
def Grade.from_raw (b : Nat) : Option Grade :=
  match b with
  | 0 => some .SSPlus
  | 1 => some .SPlus
  | 2 => some .SS
  | 3 => some .S
  | 4 => some .A
  | 5 => some .B
  | 6 => some .C
  | 7 => some .D
  | 9 => some .Unplayed
  | _ => none

/-- Modelled from the spec: the game-mode leaf enumeration is an external
collaborator ("the definition of simple leaf enumerations not tied to format
versioning (game mode)"); the four osu! modes with wire codes 0-3. -/
inductive Mode : Type
  | Standard
  | Taiko
  | CatchTheBeat
  | Mania
deriving DecidableEq

/-- Modelled from the spec: game-mode wire code. -/
def Mode.raw : Mode → Nat
  | .Standard => 0
  | .Taiko => 1
  | .CatchTheBeat => 2
  | .Mania => 3

/-- Modelled from the spec: game-mode decoding; an unrecognized code is a
hard error. -/
def Mode.from_raw (b : Nat) : Option Mode :=
  match b with
  | 0 => some .Standard
  | 1 => some .Taiko
  | 2 => some .CatchTheBeat
  | 3 => some .Mania
  | _ => none

/-- `TimingPoint` (src/listing.rs lines 195-207); `bpm` and `offset` are
`f64` bit patterns. -/
structure TimingPoint : Type where
  bpm : Nat
  offset : Nat
  inherits : Bool
deriving DecidableEq

/-- `Beatmap` (src/listing.rs lines 62-140). Strings are raw byte lists,
`f32`/`f64` fields are bit patterns, `ModSet` is its raw `u32` bit set, and
the star-rating tables are association lists of (mod bits, `f64` rating
pattern). -/
structure Beatmap : Type where
  artist_ascii : Option (List Nat)
  artist_unicode : Option (List Nat)
  title_ascii : Option (List Nat)
  title_unicode : Option (List Nat)
  creator : Option (List Nat)
  difficulty_name : Option (List Nat)
  audio : Option (List Nat)
  hash : Option (List Nat)
  file_name : Option (List Nat)
  status : RankedStatus
  hitcircle_count : Nat
  slider_count : Nat
  spinner_count : Nat
  last_modified : Nat
  approach_rate : Nat
  circle_size : Nat
  hp_drain : Nat
  overall_difficulty : Nat
  slider_velocity : Nat
  std_ratings : List (Nat × Nat)
  taiko_ratings : List (Nat × Nat)
  ctb_ratings : List (Nat × Nat)
  mania_ratings : List (Nat × Nat)
  drain_time : Nat
  total_time : Nat
  preview_time : Nat
  timing_points : List TimingPoint
  beatmap_id : Int
  beatmapset_id : Int
  thread_id : Nat
  std_grade : Grade
  taiko_grade : Grade
  ctb_grade : Grade
  mania_grade : Grade
  local_beatmap_offset : Nat
  stack_leniency : Nat
  mode : Mode
  song_source : Option (List Nat)
  tags : Option (List Nat)
  online_offset : Nat
  title_font : Option (List Nat)
  last_played : Option Nat
  is_osz2 : Bool
  folder_name : Option (List Nat)
  last_online_check : Nat
  ignore_sounds : Bool
  ignore_skin : Bool
  disable_storyboard : Bool
  disable_video : Bool
  visual_override : Bool
  mysterious_short : Option Nat
  mysterious_last_modified : Nat
  mania_scroll_speed : Nat
deriving DecidableEq

/-- `Listing` (src/listing.rs lines 16-38). -/
structure Listing : Type where
  version : Nat
  folder_count : Nat
  unban_date : Option Nat
  player_name : Option (List Nat)
  beatmaps : List Beatmap
  user_permissions : Nat
deriving DecidableEq

/-- `build_option` (src/listing.rs lines 582-588): a true flag means the
value is absent. -/
def build_option {α : Type} (is_none : Bool) (content : α) : Option α :=
  if is_none then none else some content

/-- `write_option` (src/listing.rs lines 589-605) specialized to the 64-bit
timestamp placeholder `0_u64`: `Some` writes flag false then the value,
`None` writes flag true then the placeholder. -/
def wrOptionU64 : Option Nat → List Nat
  | some t => wrBool false ++ wrU64 t
  | none => wrBool true ++ wrU64 0

/-- Rust `u32 as i32` (two's complement reinterpretation). -/
def u32ToI32 (n : Nat) : Int :=
  if n < 2147483648 then (n : Int) else (n : Int) - 4294967296

/-- Rust `i32 as u32` (two's complement reinterpretation). -/
def i32ToU32 (i : Int) : Nat := (i % 4294967296).toNat

/-! ## Listing decoders (src/listing.rs) -/

/-- `ranked_status` (src/listing.rs lines 570-572). -/
def ranked_status : Dec RankedStatus := map_opt byte RankedStatus.from_raw

/-- `grade` (src/listing.rs lines 576-578). -/
def grade : Dec Grade := map_opt byte Grade.from_raw

/-- `timing_point` (src/listing.rs lines 496-508). -/
def timing_point : Dec TimingPoint := fun bytes =>
  match double bytes with
  | none => none
  | some (rem, bpm) =>
  match double rem with
  | none => none
  | some (rem, offset) =>
  match boolean rem with
  | none => none
  | some (rem, inherits) => some (rem, { bpm, offset, inherits })

/-- `star_rating` (src/listing.rs lines 526-539): one tagged
(mod combination, rating) record; the rating is an `f64` pattern, widened
from an `f32` pattern at/above version 20250107. -/
def star_rating (bytes : List Nat) (version : Nat) : Option (List Nat × (Nat × Nat)) :=
  match tagSeq [8] bytes with
  | none => none
  | some (rem, _) =>
  match int rem with
  | none => none
  | some (rem, mods) =>
  if version < CHANGE_20250107 then
    match tagSeq [13] rem with
    | none => none
    | some (rem, _) =>
    match double rem with
    | none => none
    | some (rem, stars) => some (rem, (mods, stars))
  else
    match tagSeq [12] rem with
    | none => none
    | some (rem, _) =>
    match single rem with
    | none => none
    | some (rem, stars) => some (rem, (mods, f32to64 stars))

/-- `star_ratings` (src/listing.rs lines 516-522): empty (zero bytes) below
version 20140609, otherwise a count-prefixed list of records. -/
def star_ratings (bytes : List Nat) (version : Nat) : Option (List Nat × List (Nat × Nat)) :=
  if CHANGE_20140609 ≤ version then
    lengthCount (fun bys => star_rating bys version) bytes
  else some (bytes, [])

/-- `difficulty_value` (src/listing.rs lines 562-568): a byte widened to
`f32` below version 20140609, a 32-bit float at/above it. -/
def difficulty_value (bytes : List Nat) (version : Nat) : Option (List Nat × Nat) :=
  if CHANGE_20140609 ≤ version then single bytes
  else
    match byte bytes with
    | none => none
    | some (rem, b) => some (rem, u8ToF32bits b)

/-- Body of `beatmap` (src/listing.rs lines 299-410): every field after the
optional legacy size prefix, strictly in stream order. -/
def beatmap_body (bytes : List Nat) (version : Nat) : Option (List Nat × Beatmap) :=
  match opt_string bytes with
  | none => none
  | some (rem, artist_ascii) =>
  match opt_string rem with
  | none => none
  | some (rem, artist_unicode) =>
  match opt_string rem with
  | none => none
  | some (rem, title_ascii) =>
  match opt_string rem with
  | none => none
  | some (rem, title_unicode) =>
  match opt_string rem with
  | none => none
  | some (rem, creator) =>
  match opt_string rem with
  | none => none
  | some (rem, difficulty_name) =>
  match opt_string rem with
  | none => none
  | some (rem, audio) =>
  match opt_string rem with
  | none => none
  | some (rem, hash) =>
  match opt_string rem with
  | none => none
  | some (rem, file_name) =>
  match ranked_status rem with
  | none => none
  | some (rem, status) =>
  match short rem with
  | none => none
  | some (rem, hitcircle_count) =>
  match short rem with
  | none => none
  | some (rem, slider_count) =>
  match short rem with
  | none => none
  | some (rem, spinner_count) =>
  match datetime rem with
  | none => none
  | some (rem, last_modified) =>
  match difficulty_value rem version with
  | none => none
  | some (rem, approach_rate) =>
  match difficulty_value rem version with
  | none => none
  | some (rem, circle_size) =>
  match difficulty_value rem version with
  | none => none
  | some (rem, hp_drain) =>
  match difficulty_value rem version with
  | none => none
  | some (rem, overall_difficulty) =>
  match double rem with
  | none => none
  | some (rem, slider_velocity) =>
  match star_ratings rem version with
  | none => none
  | some (rem, std_ratings) =>
  match star_ratings rem version with
  | none => none
  | some (rem, taiko_ratings) =>
  match star_ratings rem version with
  | none => none
  | some (rem, ctb_ratings) =>
  match star_ratings rem version with
  | none => none
  | some (rem, mania_ratings) =>
  match int rem with
  | none => none
  | some (rem, drain_time) =>
  match int rem with
  | none => none
  | some (rem, total_time) =>
  match int rem with
  | none => none
  | some (rem, preview_time) =>
  match lengthCount timing_point rem with
  | none => none
  | some (rem, timing_points) =>
  match int rem with
  | none => none
  | some (rem, beatmap_id) =>
  match int rem with
  | none => none
  | some (rem, beatmapset_id) =>
  match int rem with
  | none => none
  | some (rem, thread_id) =>
  match grade rem with
  | none => none
  | some (rem, std_grade) =>
  match grade rem with
  | none => none
  | some (rem, taiko_grade) =>
  match grade rem with
  | none => none
  | some (rem, ctb_grade) =>
  match grade rem with
  | none => none
  | some (rem, mania_grade) =>
  match short rem with
  | none => none
  | some (rem, local_beatmap_offset) =>
  match single rem with
  | none => none
  | some (rem, stack_leniency) =>
  match map_opt byte Mode.from_raw rem with
  | none => none
  | some (rem, mode) =>
  match opt_string rem with
  | none => none
  | some (rem, song_source) =>
  match opt_string rem with
  | none => none
  | some (rem, tags) =>
  match short rem with
  | none => none
  | some (rem, online_offset) =>
  match opt_string rem with
  | none => none
  | some (rem, title_font) =>
  match boolean rem with
  | none => none
  | some (rem, unplayed) =>
  match datetime rem with
  | none => none
  | some (rem, last_played) =>
  match boolean rem with
  | none => none
  | some (rem, is_osz2) =>
  match opt_string rem with
  | none => none
  | some (rem, folder_name) =>
  match datetime rem with
  | none => none
  | some (rem, last_online_check) =>
  match boolean rem with
  | none => none
  | some (rem, ignore_sounds) =>
  match boolean rem with
  | none => none
  | some (rem, ignore_skin) =>
  match boolean rem with
  | none => none
  | some (rem, disable_storyboard) =>
  match boolean rem with
  | none => none
  | some (rem, disable_video) =>
  match boolean rem with
  | none => none
  | some (rem, visual_override) =>
  match condP (version < CHANGE_20140609) short rem with
  | none => none
  | some (rem, mysterious_short) =>
  match int rem with
  | none => none
  | some (rem, mysterious_last_modified) =>
  match byte rem with
  | none => none
  | some (rem, mania_scroll_speed) =>
    some (rem,
      { artist_ascii, artist_unicode, title_ascii, title_unicode, creator,
        difficulty_name, audio, hash, file_name, status, hitcircle_count,
        slider_count, spinner_count, last_modified, approach_rate, circle_size,
        hp_drain, overall_difficulty, slider_velocity, std_ratings,
        taiko_ratings, ctb_ratings, mania_ratings, drain_time, total_time,
        preview_time, timing_points,
        beatmap_id := u32ToI32 beatmap_id,
        beatmapset_id := u32ToI32 beatmapset_id,
        thread_id, std_grade, taiko_grade, ctb_grade, mania_grade,
        local_beatmap_offset, stack_leniency, mode, song_source, tags,
        online_offset, title_font,
        last_played := build_option unplayed last_played,
        is_osz2, folder_name, last_online_check, ignore_sounds, ignore_skin,
        disable_storyboard, disable_video, visual_override, mysterious_short,
        mysterious_last_modified, mania_scroll_speed })

/-- `beatmap` (src/listing.rs lines 297-411): an optional (consumed but
unvalidated) 32-bit size prefix below version 20191106, then the body. -/
def beatmap (bytes : List Nat) (version : Nat) : Option (List Nat × Beatmap) :=
  match condP (version < CHANGE_20191106) int bytes with
  | none => none
  | some (rem, _beatmap_size) => beatmap_body rem version

/-- `listing` (src/listing.rs lines 267-286). -/
def listing (bytes : List Nat) : Option (List Nat × Listing) :=
  match int bytes with
  | none => none
  | some (rem, version) =>
  match int rem with
  | none => none
  | some (rem, folder_count) =>
  match boolean rem with
  | none => none
  | some (rem, account_unlocked) =>
  match datetime rem with
  | none => none
  | some (rem, unlock_date) =>
  match opt_string rem with
  | none => none
  | some (rem, player_name) =>
  match lengthCount (fun bys => beatmap bys version) rem with
  | none => none
  | some (rem, beatmaps) =>
  match int rem with
  | none => none
  | some (rem, user_permissions) =>
    some (rem,
      { version, folder_count,
        unban_date := build_option account_unlocked unlock_date,
        player_name, beatmaps, user_permissions })

/-- `Listing::from_bytes` (src/listing.rs lines 40-42): decode and drop the
remainder. -/
def Listing.from_bytes (bytes : List Nat) : Option Listing :=
  (listing bytes).map (fun p => p.2)

/-! ## Listing writers (the `writer!` blocks of src/listing.rs) -/

/-- `writer!(RankedStatus)` (src/listing.rs line 574). -/
def wrRankedStatus (s : RankedStatus) : List Nat := wrU8 s.raw

/-- `writer!(Grade)` (src/listing.rs line 580). -/
def wrGrade (g : Grade) : List Nat := wrU8 g.raw

/-- `writer!(TimingPoint)` (src/listing.rs lines 510-514). -/
def wrTimingPoint (tp : TimingPoint) : List Nat :=
  wrU64 tp.bpm ++ wrU64 tp.offset ++ wrBool tp.inherits

/-- `writer!((ModSet,f64))` (src/listing.rs lines 546-557): lead byte 0x08,
the mod bits, then tag 0x0d + f64 below version 20250107 or tag 0x0c + the
rating narrowed to f32 at/above it. -/
def wrStarRating (version : Nat) (p : Nat × Nat) : List Nat :=
  wrU8 8 ++ wrU32 p.1 ++
    (if version < CHANGE_20250107 then wrU8 13 ++ wrU64 p.2
     else wrU8 12 ++ wrU32 (f64to32 p.2))

/-- `writer!(Vec<(ModSet,f64)>)` (src/listing.rs lines 541-545): nothing at
all below version 20140609, a count-prefixed list at/above it. -/
def wrStarRatings (version : Nat) (l : List (Nat × Nat)) : List Nat :=
  if CHANGE_20140609 ≤ version then wrPrefixedList (wrStarRating version) l
  else []

/-- The `wr_difficulty_value!` macro (src/listing.rs lines 416-424): the f32
as-is at/above version 20140609, narrowed to one byte below it. -/
def wrDifficultyValue (version : Nat) (x : Nat) : List Nat :=
  if CHANGE_20140609 ≤ version then wrU32 x
  else wrU8 (f32bitsToU8 x)

/-- `write_dry` inside `writer!(Beatmap)` (src/listing.rs lines 415-481):
every beatmap field in stream order, without the legacy size prefix. -/
def wrBeatmapDry (version : Nat) (b : Beatmap) : List Nat :=
  wrOptString b.artist_ascii ++
  wrOptString b.artist_unicode ++
  wrOptString b.title_ascii ++
  wrOptString b.title_unicode ++
  wrOptString b.creator ++
  wrOptString b.difficulty_name ++
  wrOptString b.audio ++
  wrOptString b.hash ++
  wrOptString b.file_name ++
  wrRankedStatus b.status ++
  wrU16 b.hitcircle_count ++
  wrU16 b.slider_count ++
  wrU16 b.spinner_count ++
  wrU64 b.last_modified ++
  wrDifficultyValue version b.approach_rate ++
  wrDifficultyValue version b.circle_size ++
  wrDifficultyValue version b.hp_drain ++
  wrDifficultyValue version b.overall_difficulty ++
  wrU64 b.slider_velocity ++
  wrStarRatings version b.std_ratings ++
  wrStarRatings version b.taiko_ratings ++
  wrStarRatings version b.ctb_ratings ++
  wrStarRatings version b.mania_ratings ++
  wrU32 b.drain_time ++
  wrU32 b.total_time ++
  wrU32 b.preview_time ++
  wrPrefixedList wrTimingPoint b.timing_points ++
  wrU32 (i32ToU32 b.beatmap_id) ++
  wrU32 (i32ToU32 b.beatmapset_id) ++
  wrU32 b.thread_id ++
  wrGrade b.std_grade ++
  wrGrade b.taiko_grade ++
  wrGrade b.ctb_grade ++
  wrGrade b.mania_grade ++
  wrU16 b.local_beatmap_offset ++
  wrU32 b.stack_leniency ++
  wrU8 b.mode.raw ++
  wrOptString b.song_source ++
  wrOptString b.tags ++
  wrU16 b.online_offset ++
  wrOptString b.title_font ++
  wrOptionU64 b.last_played ++
  wrBool b.is_osz2 ++
  wrOptString b.folder_name ++
  wrU64 b.last_online_check ++
  wrBool b.ignore_sounds ++
  wrBool b.ignore_skin ++
  wrBool b.disable_storyboard ++
  wrBool b.disable_video ++
  wrBool b.visual_override ++
  (if version < CHANGE_20140609 then wrU16 (b.mysterious_short.getD 0) else []) ++
  wrU32 b.mysterious_last_modified ++
  wrU8 b.mania_scroll_speed

/-- `writer!(Beatmap)` (src/listing.rs lines 413-494): below version
20191106 the body is materialized first and written behind its 32-bit byte
length; otherwise it is written as-is. -/
def wrBeatmap (version : Nat) (b : Beatmap) : List Nat :=
  if version < CHANGE_20191106 then
    wrU32 (wrBeatmapDry version b).length ++ wrBeatmapDry version b
  else wrBeatmapDry version b

/-- `writer!(Listing)` (src/listing.rs lines 288-295). -/
def wrListing (L : Listing) : List Nat :=
  wrU32 L.version ++
  wrU32 L.folder_count ++
  wrOptionU64 L.unban_date ++
  wrOptString L.player_name ++
  wrPrefixedList (wrBeatmap L.version) L.beatmaps ++
  wrU32 L.user_permissions

/-! ## Validity: field contents consistent with the version
A `Listing` is round-trip valid when every numeric field fits its wire
width and every version-gated field agrees with the version: the legacy
short is present exactly below 20140609, rating tables are empty below
20140609, difficulty values are exactly byte-representable below 20140609,
and ratings are exactly f32-representable at/above 20250107. -/

/-- A difficulty value consistent with the version: within 32 bits at/above
20140609, exactly the widening of the byte it narrows to below it. -/
def diffOk (version x : Nat) : Bool :=
  if CHANGE_20140609 ≤ version then decide (x < 2 ^ 32)
  else decide (u8ToF32bits (f32bitsToU8 x) = x)

/-- One rating record consistent with the version: the narrowed f32 widens
back to the stored f64 at/above 20250107. -/
def ratingOk (version : Nat) (p : Nat × Nat) : Bool :=
  decide (p.1 < 2 ^ 32) &&
    (if version < CHANGE_20250107 then decide (p.2 < 2 ^ 64)
     else decide (f32to64 (f64to32 p.2) = p.2))

/-- A rating table consistent with the version: empty below 20140609. -/
def ratingsOk (version : Nat) (l : List (Nat × Nat)) : Bool :=
  if CHANGE_20140609 ≤ version then
    decide (l.length < 2 ^ 32) && l.all (ratingOk version)
  else l.isEmpty

/-- The legacy short consistent with the version: present (16-bit) exactly
below 20140609. -/
def mshortOk (version : Nat) (o : Option Nat) : Bool :=
  if version < CHANGE_20140609 then o.isSome && decide (o.getD 0 < 2 ^ 16)
  else o.isNone

/-- Timing-point patterns within 64 bits. -/
def tpOk (tp : TimingPoint) : Bool :=
  decide (tp.bpm < 2 ^ 64) && decide (tp.offset < 2 ^ 64)

/-- A beatmap whose field contents are consistent with `version`. -/
def validBeatmap (version : Nat) (b : Beatmap) : Bool :=
  decide (b.hitcircle_count < 2 ^ 16) &&
  decide (b.slider_count < 2 ^ 16) &&
  decide (b.spinner_count < 2 ^ 16) &&
  decide (b.last_modified < 2 ^ 64) &&
  diffOk version b.approach_rate &&
  diffOk version b.circle_size &&
  diffOk version b.hp_drain &&
  diffOk version b.overall_difficulty &&
  decide (b.slider_velocity < 2 ^ 64) &&
  ratingsOk version b.std_ratings &&
  ratingsOk version b.taiko_ratings &&
  ratingsOk version b.ctb_ratings &&
  ratingsOk version b.mania_ratings &&
  decide (b.drain_time < 2 ^ 32) &&
  decide (b.total_time < 2 ^ 32) &&
  decide (b.preview_time < 2 ^ 32) &&
  decide (b.timing_points.length < 2 ^ 32) &&
  b.timing_points.all tpOk &&
  decide (-2147483648 ≤ b.beatmap_id) &&
  decide (b.beatmap_id < 2147483648) &&
  decide (-2147483648 ≤ b.beatmapset_id) &&
  decide (b.beatmapset_id < 2147483648) &&
  decide (b.thread_id < 2 ^ 32) &&
  decide (b.local_beatmap_offset < 2 ^ 16) &&
  decide (b.stack_leniency < 2 ^ 32) &&
  decide (b.online_offset < 2 ^ 16) &&
  decide (b.last_played.getD 0 < 2 ^ 64) &&
  decide (b.last_online_check < 2 ^ 64) &&
  mshortOk version b.mysterious_short &&
  decide (b.mysterious_last_modified < 2 ^ 32) &&
  decide (b.mania_scroll_speed < 2 ^ 8)

/-- A listing whose field contents are consistent with its version field. -/
def validListing (L : Listing) : Bool :=
  decide (L.version < 2 ^ 32) &&
  decide (L.folder_count < 2 ^ 32) &&
  decide (L.unban_date.getD 0 < 2 ^ 64) &&
  decide (L.beatmaps.length < 2 ^ 32) &&
  L.beatmaps.all (validBeatmap L.version) &&
  decide (L.user_permissions < 2 ^ 32)

/-! ## Replay data model (src/replay.rs)

Numeric values carried by replay actions are modelled exactly over `ℚ`: the
textual decimal grammar denotes exact decimal numbers and the source folds
their digits in `f64`; the claims proved below concern only parse
success/failure and stream structure, never the rounding of these numeric
payloads. -/

/-- `DEFAULT_COMPRESSION_LEVEL` (src/replay.rs line 13). -/
def DEFAULT_COMPRESSION_LEVEL : Nat := 5

/-- `Action` (src/replay.rs lines 193-214): `delta` is the Rust `i64`
(modelled as `Int`), the three payload slots are the parsed numbers. -/
structure Action : Type where
  delta : Int
  x : Rat
  y : Rat
  z : Rat
deriving DecidableEq

/-- `Replay` (src/replay.rs lines 20-71), with the `compression` feature
enabled so `replay_data` is a parsed action list. -/
structure Replay : Type where
  mode : Mode
  version : Nat
  beatmap_hash : Option (List Nat)
  player_name : Option (List Nat)
  replay_hash : Option (List Nat)
  count_300 : Nat
  count_100 : Nat
  count_50 : Nat
  count_geki : Nat
  count_katsu : Nat
  count_miss : Nat
  score : Nat
  max_combo : Nat
  perfect_combo : Bool
  mods : Nat
  life_graph : Option (List Nat)
  timestamp : Nat
  replay_data : Option (List Action)
  online_score_id : Nat
deriving DecidableEq

/-- ASCII decimal digit test (`u8::is_ascii_digit`). -/
def isDigit (b : Nat) : Bool := 48 ≤ b && b ≤ 57

/-- nom's `take_while1!`: the longest nonempty prefix satisfying `f`
(failing when it is empty). -/
def takeWhile1 (f : Nat → Bool) : Dec (List Nat) := fun bytes =>
  let t := bytes.takeWhile f
  if t.isEmpty then none else some (bytes.drop t.length, t)

/-- nom's `opt!`: an optional sub-parse, succeeding with `none` on failure. -/
def optP {α : Type} (p : Dec α) : Dec (Option α) := fun bytes =>
  match p bytes with
  | none => some (bytes, none)
  | some (r, a) => some (r, some a)

/-- The digit folds of `number` (src/replay.rs lines 399-413), carried out
exactly over `ℚ` (the source folds in `f64`): whole digits by
`num = num * 10 + d`, decimal digits by `value = value / 10;
num = num + d * value`, then negation by the sign. -/
def numValue (neg : Bool) (whole : List Nat) (decimal : Option (List Nat)) : Rat :=
  let num := whole.foldl (fun acc b => acc * 10 + ((b - 48 : Nat) : Rat)) 0
  let num2 := ((decimal.getD []).foldl
    (fun (p : Rat × Rat) b => (p.1 + ((b - 48 : Nat) : Rat) * (p.2 / 10), p.2 / 10))
    (num, 1)).1
  if neg then -num2 else num2

/-- The optional decimal part of `number` (src/replay.rs lines 394-398):
a literal `.` followed by a nonempty digit run. -/
def decimalPart : Dec (List Nat) := fun bys =>
  match tagSeq [46] bys with
  | none => none
  | some (rem2, _) =>
  match takeWhile1 isDigit rem2 with
  | none => none
  | some (rem2, dec) => some (rem2, dec)

/-- `number` (src/replay.rs lines 391-415): optional `-`, a nonempty run of
digits, an optional `.`-prefixed nonempty run of decimal digits. -/
def number : Dec Rat := fun bytes =>
  match optP (tagSeq [45]) bytes with
  | none => none
  | some (rem, sign) =>
  match takeWhile1 isDigit rem with
  | none => none
  | some (rem, whole) =>
  match optP decimalPart rem with
  | none => none
  | some (rem, decimal) => some (rem, numValue sign.isSome whole decimal)

/-- Rust `f64 as i64` applied to the parsed delta: truncation toward zero,
saturating at the `i64` bounds. -/
def ratToI64 (q : Rat) : Int :=
  max (-9223372036854775808) (min 9223372036854775807 (q.num.tdiv (q.den : Int)))

/-- One record of the action grammar (the `do_parse!` body inside `actions`,
src/replay.rs lines 369-384): `number | number | number | number ,`. -/
def actionRecord : Dec Action := fun bytes =>
  match number bytes with
  | none => none
  | some (rem, delta) =>
  match tagSeq [124] rem with
  | none => none
  | some (rem, _) =>
  match number rem with
  | none => none
  | some (rem, x) =>
  match tagSeq [124] rem with
  | none => none
  | some (rem, _) =>
  match number rem with
  | none => none
  | some (rem, y) =>
  match tagSeq [124] rem with
  | none => none
  | some (rem, _) =>
  match number rem with
  | none => none
  | some (rem, z) =>
  match tagSeq [44] rem with
  | none => none
  | some (rem, _) =>
    some (rem, { delta := ratToI64 delta, x := x, y := y, z := z })

/-- Fuel-bounded worker for nom's `many0!(complete!(record))` (the fuel is a
structural-termination device; `actions` supplies more than the input
length, and a successful record always consumes input). On record failure
the loop stops and returns the records accumulated so far together with the
unconsumed remainder; a record succeeding without consuming input is nom's
`Many0` error. -/
def actionsGo : Nat → Dec (List Action)
  | 0, _ => none
  | fuel + 1, bytes =>
    match actionRecord bytes with
    | none => some (bytes, [])
    | some (rest, a) =>
      if rest.length < bytes.length then
        match actionsGo fuel rest with
        | none => none
        | some (rem, acts) => some (rem, a :: acts)
      else none

/-- `actions` (src/replay.rs lines 368-385): `many0!(complete!(...))` over
the decompressed payload text. -/
def actions : Dec (List Action) := fun bytes => actionsGo (bytes.length + 1) bytes

/-- `replay_data` (src/replay.rs lines 319-326), parameterized by the
external LZMA decompressor (`decomp`, the Compression Codec collaborator;
`none` models a decompression error): decompress, parse the action text,
and keep only the parsed actions (`actions(&data)?.1` drops any unconsumed
remainder). -/
def replay_data (decomp : List Nat → Option (List Nat)) (raw : List Nat) :
    Option (List Action) :=
  match decomp raw with
  | none => none
  | some data =>
    match actions data with
    | none => none
    | some (_rem, acts) => some acts

/-- `replay` (src/replay.rs lines 105-158), parameterized by the external
decompressor: the shared header fields, then the payload branch on
`standalone` (the 4-byte `0xFFFFFFFF` sentinel when embedded, a 32-bit
length-prefixed block handed to `replay_data` when standalone), then the
online score id. -/
def replay (decomp : List Nat → Option (List Nat)) (bytes : List Nat)
    (standalone : Bool) : Option (List Nat × Replay) :=
  match map_opt byte Mode.from_raw bytes with
  | none => none
  | some (rem, mode) =>
  match int rem with
  | none => none
  | some (rem, version) =>
  match opt_string rem with
  | none => none
  | some (rem, beatmap_hash) =>
  match opt_string rem with
  | none => none
  | some (rem, player_name) =>
  match opt_string rem with
  | none => none
  | some (rem, replay_hash) =>
  match short rem with
  | none => none
  | some (rem, count_300) =>
  match short rem with
  | none => none
  | some (rem, count_100) =>
  match short rem with
  | none => none
  | some (rem, count_50) =>
  match short rem with
  | none => none
  | some (rem, count_geki) =>
  match short rem with
  | none => none
  | some (rem, count_katsu) =>
  match short rem with
  | none => none
  | some (rem, count_miss) =>
  match int rem with
  | none => none
  | some (rem, score) =>
  match short rem with
  | none => none
  | some (rem, max_combo) =>
  match boolean rem with
  | none => none
  | some (rem, perfect_combo) =>
  match int rem with
  | none => none
  | some (rem, mods) =>
  match opt_string rem with
  | none => none
  | some (rem, life_graph) =>
  match datetime rem with
  | none => none
  | some (rem, timestamp) =>
  match (if standalone then
      match int rem with
      | none => none
      | some (rem2, n) =>
        if n ≤ rem2.length then
          match replay_data decomp (rem2.take n) with
          | none => none
          | some acts => some (rem2.drop n, some acts)
        else none
    else
      match tagSeq [255, 255, 255, 255] rem with
      | none => none
      | some (rem2, _) => some (rem2, (none : Option (List Action)))) with
  | none => none
  | some (rem, rd) =>
  match long rem with
  | none => none
  | some (rem, online_score_id) =>
    some (rem,
      { mode, version, beatmap_hash, player_name, replay_hash, count_300,
        count_100, count_50, count_geki, count_katsu, count_miss, score,
        max_combo, perfect_combo, mods, life_graph, timestamp,
        replay_data := rd, online_score_id })

/-- The header fields of `writer!(Replay)` (src/replay.rs lines 160-176),
shared by both payload branches. -/
def hdrBytes (R : Replay) : List Nat :=
  wrU8 R.mode.raw ++
  wrU32 R.version ++
  wrOptString R.beatmap_hash ++
  wrOptString R.player_name ++
  wrOptString R.replay_hash ++
  wrU16 R.count_300 ++
  wrU16 R.count_100 ++
  wrU16 R.count_50 ++
  wrU16 R.count_geki ++
  wrU16 R.count_katsu ++
  wrU16 R.count_miss ++
  wrU32 R.score ++
  wrU16 R.max_combo ++
  wrBool R.perfect_combo ++
  wrU32 R.mods ++
  wrOptString R.life_graph ++
  wrU64 R.timestamp

/-- `writer!(Replay)` (src/replay.rs lines 159-183) together with
`write_replay_data`/`write_raw_replay_data` (lines 332-365), parameterized
by the external compressor (`compress level text`) and by the `f64` text
formatting of one action (`fmt`, the `writer!(Action)` of lines 386-388,
whose decimal rendering of floats is external to this model): a `none`
compression level emits the 4-byte `0xFFFFFFFF` sentinel; `some level`
always emits the 32-bit length-prefixed compressed action text, an absent
action list compressing as the empty text. -/
def wrReplay (compress : Nat → List Nat → List Nat) (fmt : Action → List Nat)
    (R : Replay) (compress_data : Option Nat) : List Nat :=
  hdrBytes R ++
  (match compress_data with
   | some level =>
     let raw := compress level (wrList fmt (R.replay_data.getD []))
     wrU32 raw.length ++ raw
   | none => [255, 255, 255, 255]) ++
  wrU64 R.online_score_id

/-- `Replay::to_writer` (src/replay.rs lines 88-97): the public writer
replaces a `none` compression level by `DEFAULT_COMPRESSION_LEVEL` before
invoking the writer (`Replay::save`, lines 100-102, forwards here). -/
def Replay.to_writer (compress : Nat → List Nat → List Nat)
    (fmt : Action → List Nat) (R : Replay) (compression_level : Option Nat) :
    List Nat :=
  wrReplay compress fmt R (some (compression_level.getD DEFAULT_COMPRESSION_LEVEL))

/-- Replay header fields within their wire widths. -/
def validReplayHeader (R : Replay) : Bool :=
  decide (R.version < 2 ^ 32) &&
  decide (R.count_300 < 2 ^ 16) &&
  decide (R.count_100 < 2 ^ 16) &&
  decide (R.count_50 < 2 ^ 16) &&
  decide (R.count_geki < 2 ^ 16) &&
  decide (R.count_katsu < 2 ^ 16) &&
  decide (R.count_miss < 2 ^ 16) &&
  decide (R.score < 2 ^ 32) &&
  decide (R.max_combo < 2 ^ 16) &&
  decide (R.mods < 2 ^ 32) &&
  decide (R.timestamp < 2 ^ 64)

/-! ## Concrete test values (used by the claim witnesses) -/

/-- A concrete beatmap; the version-gated fields (difficulty patterns,
rating tables, legacy short) are supplied per epoch. -/
def testBeatmap (diff : Nat) (ratings : List (Nat × Nat)) (ms : Option Nat) : Beatmap :=
  { artist_ascii := some [111, 107], artist_unicode := none,
    title_ascii := some [97], title_unicode := none, creator := some [99],
    difficulty_name := some [72, 97, 114, 100], audio := none,
    hash := some [97, 98, 99, 100], file_name := some [102],
    status := RankedStatus.Ranked, hitcircle_count := 120, slider_count := 3,
    spinner_count := 0, last_modified := 636000000000000000,
    approach_rate := diff, circle_size := diff, hp_drain := diff,
    overall_difficulty := diff, slider_velocity := 4611686018427387904,
    std_ratings := ratings, taiko_ratings := [], ctb_ratings := ratings,
    mania_ratings := [], drain_time := 95, total_time := 97000,
    preview_time := 30000,
    timing_points := [{ bpm := 4643985272004935680, offset := 0, inherits := true }],
    beatmap_id := 1234, beatmapset_id := -1, thread_id := 0,
    std_grade := Grade.S, taiko_grade := Grade.Unplayed,
    ctb_grade := Grade.Unplayed, mania_grade := Grade.Unplayed,
    local_beatmap_offset := 0, stack_leniency := 1056964608,
    mode := Mode.Standard, song_source := none, tags := some [116, 97, 103],
    online_offset := 0, title_font := none, last_played := some 5555,
    is_osz2 := false, folder_name := some [102, 111], last_online_check := 77,
    ignore_sounds := false, ignore_skin := true, disable_storyboard := false,
    disable_video := false, visual_override := false, mysterious_short := ms,
    mysterious_last_modified := 42, mania_scroll_speed := 0 }

/-- A concrete listing around one beatmap. -/
def testListing (v : Nat) (ub : Option Nat) (bm : Beatmap) : Listing :=
  { version := v, folder_count := 2, unban_date := ub,
    player_name := some [112, 108], beatmaps := [bm], user_permissions := 4 }

/-- Representative listing below epoch 20140609 (byte-stored difficulties,
no rating tables, legacy short present). -/
def TL1 : Listing := testListing 20100101 none (testBeatmap (u8ToF32bits 7) [] (some 3))

/-- Representative listing in [20140609, 20191106) (size-prefixed entries,
f32 difficulties, f64 ratings). -/
def TL2 : Listing :=
  testListing 20150101 (some 77) (testBeatmap 1097859072 [(576, 4617315517961601024)] none)

/-- Representative listing in [20191106, 20250107) (no size prefix, f64
ratings). -/
def TL3 : Listing := testListing 20200101 none (testBeatmap 1097859072 [(0, 42)] none)

/-- Representative listing at/above 20250107 (f32 ratings; the rating is an
exactly f32-representable f64 pattern). -/
def TL4 : Listing :=
  testListing 20250107 none (testBeatmap 1097859072 [(8, f32to64 1069547520)] none)

/-- A concrete replay header (no payload, no score id yet). -/
def testReplay : Replay :=
  { mode := Mode.Standard, version := 20200101, beatmap_hash := some [97],
    player_name := some [98, 99], replay_hash := none, count_300 := 100,
    count_100 := 5, count_50 := 0, count_geki := 10, count_katsu := 2,
    count_miss := 1, score := 725730, max_combo := 90, perfect_combo := false,
    mods := 64, life_graph := some [49, 124, 49], timestamp := 636999999999999,
    replay_data := none, online_score_id := 0 }

-- DEFS_END

/-! ## Round-trip lemmas for the primitives -/

theorem obind_some {α β : Type} (a : α) (f : α → Option β) :
    Option.bind (some a) f = f a := rfl

theorem byte_mod (n : Nat) (r : List Nat) : byte (wrU8 n ++ r) = some (r, n % 256) := rfl

theorem byte_rt (n : Nat) (r : List Nat) (h : n < 256) :
    byte (wrU8 n ++ r) = some (r, n) := by
  simp [byte, wrU8, Nat.mod_eq_of_lt h]

theorem short_rt (n : Nat) (r : List Nat) (h : n < 65536) :
    short (wrU16 n ++ r) = some (r, n) := by
  simp only [short, wrU16, List.cons_append, List.nil_append, Option.some.injEq,
    Prod.mk.injEq, true_and]
  omega

theorem int_mod (n : Nat) (r : List Nat) :
    int (wrU32 n ++ r) = some (r, n % 4294967296) := by
  simp only [int, wrU32, List.cons_append, List.nil_append, Option.some.injEq,
    Prod.mk.injEq, true_and]
  omega

theorem int_rt (n : Nat) (r : List Nat) (h : n < 4294967296) :
    int (wrU32 n ++ r) = some (r, n) := by
  rw [int_mod, Nat.mod_eq_of_lt h]

theorem long_rt (n : Nat) (r : List Nat) (h : n < 18446744073709551616) :
    long (wrU64 n ++ r) = some (r, n) := by
  simp only [long, wrU64, List.cons_append, List.nil_append, Option.some.injEq,
    Prod.mk.injEq, true_and]
  omega

theorem single_rt (n : Nat) (r : List Nat) (h : n < 4294967296) :
    single (wrU32 n ++ r) = some (r, n) := int_rt n r h

theorem double_rt (n : Nat) (r : List Nat) (h : n < 18446744073709551616) :
    double (wrU64 n ++ r) = some (r, n) := long_rt n r h

theorem datetime_rt (n : Nat) (r : List Nat) (h : n < 18446744073709551616) :
    datetime (wrU64 n ++ r) = some (r, n) := long_rt n r h

theorem bool_rt (b : Bool) (r : List Nat) : boolean (wrBool b ++ r) = some (r, b) := by
  cases b <;> rfl

theorem ulebW_rt (fuel : Nat) : ∀ (n : Nat) (r : List Nat), n < fuel →
    uleb (ulebW fuel n ++ r) = some (r, n) := by
  induction fuel with
  | zero => intro n r h; omega
  | succ f ih =>
    intro n r h
    by_cases hn : n < 128
    · simp [ulebW, uleb, hn]
    · have hd : n / 128 < f := by omega
      have hih := ih (n / 128) r hd
      have hb : ¬ (n % 128 + 128 < 128) := by omega
      simp only [ulebW, if_neg hn, List.cons_append, uleb, if_neg hb, hih]
      congr 2
      omega

theorem uleb_rt (n : Nat) (r : List Nat) : uleb (wrUleb n ++ r) = some (r, n) :=
  ulebW_rt (n + 1) n r (Nat.lt_succ_self n)

theorem opt_string_rt (s : Option (List Nat)) (r : List Nat) :
    opt_string (wrOptString s ++ r) = some (r, s) := by
  cases s with
  | none => rfl
  | some str =>
    simp only [wrOptString, List.cons_append, List.append_assoc]
    have h11 : (11 : Nat) ≠ 0 := by omega
    simp only [opt_string, if_neg h11, uleb_rt str.length (str ++ r)]
    have hlen : str.length ≤ (str ++ r).length := by
      simp [List.length_append, Nat.le_add_right]
    simp [hlen, List.take_left, List.drop_left]

theorem readN_rt {α : Type} (p : Dec α) (enc : α → List Nat) (l : List α) (r : List Nat)
    (h : ∀ x ∈ l, ∀ r', p (enc x ++ r') = some (r', x)) :
    readN p l.length (wrList enc l ++ r) = some (r, l) := by
  induction l with
  | nil => rfl
  | cons a l ih =>
    have ha := h a (List.mem_cons_self a l) (wrList enc l ++ r)
    simp only [wrList, List.length_cons, readN, List.append_assoc, ha]
    rw [ih (fun x hx => h x (List.mem_cons_of_mem a hx))]

theorem prefixedList_rt {α : Type} (p : Dec α) (enc : α → List Nat) (l : List α) (r : List Nat)
    (hlen : l.length < 4294967296)
    (h : ∀ x ∈ l, ∀ r', p (enc x ++ r') = some (r', x)) :
    lengthCount p (wrPrefixedList enc l ++ r) = some (r, l) := by
  simp only [lengthCount, wrPrefixedList, List.append_assoc,
    int_rt l.length (wrList enc l ++ r) hlen]
  exact readN_rt p enc l r h


/-! ## Round-trip lemmas for the listing codec -/

theorem ranked_rt (st : RankedStatus) (r : List Nat) :
    ranked_status (wrRankedStatus st ++ r) = some (r, st) := by
  cases st <;> rfl

theorem grade_rt (g : Grade) (r : List Nat) :
    grade (wrGrade g ++ r) = some (r, g) := by
  cases g <;> rfl

theorem mode_rt (m : Mode) (r : List Nat) :
    map_opt byte Mode.from_raw (wrU8 m.raw ++ r) = some (r, m) := by
  cases m <;> rfl

theorem build_option_norm {α : Type} [Inhabited α] (o : Option α) :
    build_option o.isNone (o.getD default) = o := by
  cases o <;> rfl

theorem build_option_norm0 (o : Option Nat) :
    build_option o.isNone (o.getD 0) = o := by
  cases o <;> rfl

theorem wrOptionU64_eq (o : Option Nat) :
    wrOptionU64 o = wrBool o.isNone ++ wrU64 (o.getD 0) := by
  cases o <;> rfl

theorem i32_rt (i : Int) (h1 : -2147483648 ≤ i) (h2 : i < 2147483648) :
    u32ToI32 (i32ToU32 i) = i := by
  simp only [u32ToI32, i32ToU32]
  split <;> omega

theorem i32ToU32_lt (i : Int) : i32ToU32 i < 4294967296 := by
  simp only [i32ToU32]
  omega

theorem timing_point_rt (tp : TimingPoint) (r : List Nat)
    (h : tpOk tp = true) :
    timing_point (wrTimingPoint tp ++ r) = some (r, tp) := by
  simp only [tpOk, Bool.and_eq_true, decide_eq_true_eq] at h
  obtain ⟨h1, h2⟩ := h
  simp only [timing_point, wrTimingPoint, List.append_assoc,
    double_rt tp.bpm _ h1, double_rt tp.offset _ h2, bool_rt]

theorem tag1_rt (t : Nat) (r : List Nat) (ht : t < 256) :
    tagSeq [t] (wrU8 t ++ r) = some (r, ()) := by
  simp [tagSeq, wrU8, Nat.mod_eq_of_lt ht]

theorem roundEven_le (x k : Nat) : roundEven x k ≤ x / 2 ^ k + 1 := by
  simp only [roundEven]
  split
  · rename_i hk
    subst hk
    simp [Nat.pow_zero]
  · split
    · omega
    · split
      · omega
      · split <;> omega

theorem f64to32_lt (p : Nat) : f64to32 p < 4294967296 := by
  simp only [f64to32]
  have hs : p / 2 ^ 63 % 2 < 2 := Nat.mod_lt _ (by norm_num)
  have hm : p % 2 ^ 52 < 2 ^ 52 := Nat.mod_lt _ (by norm_num)
  have he : p / 2 ^ 52 % 2048 < 2048 := Nat.mod_lt _ (by norm_num)
  have hlor : 2 ^ 22 ||| p % 2 ^ 52 / 2 ^ 29 < 2 ^ 23 := by
    have h1 : (2 : Nat) ^ 22 < 2 ^ 23 := by norm_num
    have h2 : p % 2 ^ 52 / 2 ^ 29 < 2 ^ 23 := by omega
    exact Nat.bitwise_lt h1 h2
  have hre : roundEven (2 ^ 52 + p % 2 ^ 52) 29 ≤ 2 ^ 24 := by
    have := roundEven_le (2 ^ 52 + p % 2 ^ 52) 29
    omega
  split
  · split <;> omega
  · split
    · omega
    · split
      · omega
      · split
        · split
          · split <;> omega
          · omega
        · rename_i h1151 h897
          have h30 : (2 : Nat) ^ 30 ≤ 2 ^ (926 - p / 2 ^ 52 % 2048) := by
            apply Nat.pow_le_pow_right (by norm_num)
            omega
          have hdiv : (2 ^ 52 + p % 2 ^ 52) / 2 ^ (926 - p / 2 ^ 52 % 2048)
              ≤ (2 ^ 52 + p % 2 ^ 52) / 2 ^ 30 :=
            Nat.div_le_div_left h30 (by positivity)
          have := roundEven_le (2 ^ 52 + p % 2 ^ 52) (926 - p / 2 ^ 52 % 2048)
          omega

theorem f32bitsToU8_lt (p : Nat) : f32bitsToU8 p < 256 := by
  simp only [f32bitsToU8]
  have hm : p % 2 ^ 23 < 2 ^ 23 := Nat.mod_lt _ (by norm_num)
  split
  · split
    · split <;> omega
    · omega
  · split
    · omega
    · split
      · omega
      · split
        · omega
        · rename_i he255 hs he127 he135
          have h16 : (2 : Nat) ^ 16 ≤ 2 ^ (23 - (p / 2 ^ 23 % 256 - 127)) := by
            apply Nat.pow_le_pow_right (by norm_num)
            omega
          have hdiv : (2 ^ 23 + p % 2 ^ 23) / 2 ^ (23 - (p / 2 ^ 23 % 256 - 127))
              ≤ (2 ^ 23 + p % 2 ^ 23) / 2 ^ 16 :=
            Nat.div_le_div_left h16 (by positivity)
          omega

theorem star_rating_rt (version : Nat) (p : Nat × Nat) (r : List Nat)
    (h : ratingOk version p = true) :
    star_rating (wrStarRating version p ++ r) version = some (r, p) := by
  simp only [ratingOk, Bool.and_eq_true, decide_eq_true_eq] at h
  obtain ⟨h1, h2⟩ := h
  have t8 := fun r' => tag1_rt 8 r' (by omega)
  have hi := fun r' => int_rt p.1 r' h1
  by_cases hv : version < CHANGE_20250107
  · rw [if_pos hv, decide_eq_true_eq] at h2
    have t13 := fun r' => tag1_rt 13 r' (by omega)
    have hd := fun r' => double_rt p.2 r' h2
    simp only [wrStarRating, if_pos hv, star_rating, List.append_assoc,
      t8, hi, t13, hd]
  · rw [if_neg hv, decide_eq_true_eq] at h2
    have t12 := fun r' => tag1_rt 12 r' (by omega)
    have hsg := fun r' => single_rt (f64to32 p.2) r' (f64to32_lt p.2)
    simp only [wrStarRating, if_neg hv, star_rating, List.append_assoc,
      t8, hi, t12, hsg, h2]

theorem star_ratings_rt (version : Nat) (l : List (Nat × Nat)) (r : List Nat)
    (h : ratingsOk version l = true) :
    star_ratings (wrStarRatings version l ++ r) version = some (r, l) := by
  by_cases hv : CHANGE_20140609 ≤ version
  · simp only [ratingsOk, if_pos hv, Bool.and_eq_true, decide_eq_true_eq,
      List.all_eq_true] at h
    obtain ⟨hlen, hall⟩ := h
    simp only [wrStarRatings, if_pos hv, star_ratings]
    exact prefixedList_rt _ _ l r hlen
      (fun x hx r' => star_rating_rt version x r' (hall x hx))
  · simp only [ratingsOk, if_neg hv, List.isEmpty_iff] at h
    subst h
    simp [wrStarRatings, star_ratings, hv]

theorem difficulty_rt (version x : Nat) (r : List Nat)
    (h : diffOk version x = true) :
    difficulty_value (wrDifficultyValue version x ++ r) version = some (r, x) := by
  by_cases hv : CHANGE_20140609 ≤ version
  · simp only [diffOk, if_pos hv, decide_eq_true_eq] at h
    simp only [wrDifficultyValue, if_pos hv, difficulty_value, if_pos hv,
      single_rt x r h]
  · simp only [diffOk, if_neg hv, decide_eq_true_eq] at h
    simp only [wrDifficultyValue, if_neg hv, difficulty_value, if_neg hv,
      byte_rt _ r (f32bitsToU8_lt x), h]

theorem mshort_rt (version : Nat) (o : Option Nat) (r : List Nat)
    (h : mshortOk version o = true) :
    condP (version < CHANGE_20140609) short
      ((if version < CHANGE_20140609 then wrU16 (o.getD 0) else []) ++ r)
      = some (r, o) := by
  by_cases hv : version < CHANGE_20140609
  · simp only [mshortOk, if_pos hv, Bool.and_eq_true, decide_eq_true_eq,
      Option.isSome_iff_exists] at h
    obtain ⟨⟨m, hm⟩, hlt⟩ := h
    subst hm
    simp only [Option.getD_some] at hlt ⊢
    simp only [if_pos hv, condP, short_rt m r hlt]
  · simp only [mshortOk, if_neg hv, Option.isNone_iff_eq_none] at h
    subst h
    simp [condP, hv]

theorem beatmap_body_rt (version : Nat) (b : Beatmap) (r : List Nat)
    (h : validBeatmap version b = true) :
    beatmap_body (wrBeatmapDry version b ++ r) version = some (r, b) := by
  simp only [validBeatmap, Bool.and_eq_true, decide_eq_true_eq, and_assoc,
    List.all_eq_true] at h
  obtain ⟨hc1, hc2, hc3, hlm, hd1, hd2, hd3, hd4, hsv, hr1, hr2, hr3, hr4,
    hdt, htt, hpt, htpl, htpa, hbid1, hbid2, hbs1, hbs2, hth, hlbo, hsl, hoo,
    hlp, hloc, hms, hmlm, hmss⟩ := h
  have hsh1 := fun r' => short_rt b.hitcircle_count r' hc1
  have hsh2 := fun r' => short_rt b.slider_count r' hc2
  have hsh3 := fun r' => short_rt b.spinner_count r' hc3
  have hsh4 := fun r' => short_rt b.local_beatmap_offset r' hlbo
  have hsh5 := fun r' => short_rt b.online_offset r' hoo
  have hdt1 := fun r' => datetime_rt b.last_modified r' hlm
  have hdt2 := fun r' => datetime_rt b.last_online_check r' hloc
  have hdt3 := fun r' => datetime_rt (b.last_played.getD 0) r' hlp
  have hda := fun r' => difficulty_rt version b.approach_rate r' hd1
  have hdb := fun r' => difficulty_rt version b.circle_size r' hd2
  have hdc := fun r' => difficulty_rt version b.hp_drain r' hd3
  have hdd := fun r' => difficulty_rt version b.overall_difficulty r' hd4
  have hdsv := fun r' => double_rt b.slider_velocity r' hsv
  have hsr1 := fun r' => star_ratings_rt version b.std_ratings r' hr1
  have hsr2 := fun r' => star_ratings_rt version b.taiko_ratings r' hr2
  have hsr3 := fun r' => star_ratings_rt version b.ctb_ratings r' hr3
  have hsr4 := fun r' => star_ratings_rt version b.mania_ratings r' hr4
  have hi1 := fun r' => int_rt b.drain_time r' hdt
  have hi2 := fun r' => int_rt b.total_time r' htt
  have hi3 := fun r' => int_rt b.preview_time r' hpt
  have hi4 := fun r' => int_rt b.thread_id r' hth
  have hi5 := fun r' => int_rt b.mysterious_last_modified r' hmlm
  have htp := fun r' => prefixedList_rt timing_point wrTimingPoint
    b.timing_points r' htpl (fun x hx r'' => timing_point_rt x r'' (htpa x hx))
  have hid1 := fun r' => int_rt (i32ToU32 b.beatmap_id) r' (i32ToU32_lt _)
  have hid2 := fun r' => int_rt (i32ToU32 b.beatmapset_id) r' (i32ToU32_lt _)
  have hidv1 : u32ToI32 (i32ToU32 b.beatmap_id) = b.beatmap_id :=
    i32_rt _ hbid1 hbid2
  have hidv2 : u32ToI32 (i32ToU32 b.beatmapset_id) = b.beatmapset_id :=
    i32_rt _ hbs1 hbs2
  have hstk := fun r' => single_rt b.stack_leniency r' hsl
  have hmsh := fun r' => mshort_rt version b.mysterious_short r' hms
  have hbyt := fun r' => byte_rt b.mania_scroll_speed r' hmss
  simp only [beatmap_body, wrBeatmapDry,
    List.append_assoc, List.cons_append, opt_string_rt, ranked_rt, grade_rt,
    mode_rt, bool_rt, wrOptionU64_eq, build_option_norm0, hsh1, hsh2, hsh3,
    hsh4, hsh5, hdt1, hdt2, hdt3, hda, hdb, hdc, hdd, hdsv, hsr1, hsr2, hsr3,
    hsr4, hi1, hi2, hi3, hi4, hi5, htp, hid1, hid2, hidv1, hidv2, hstk, hmsh,
    hbyt]

theorem beatmap_rt (version : Nat) (b : Beatmap) (r : List Nat)
    (h : validBeatmap version b = true) :
    beatmap (wrBeatmap version b ++ r) version = some (r, b) := by
  by_cases hv : version < CHANGE_20191106
  · simp only [wrBeatmap, if_pos hv, beatmap, condP, List.append_assoc,
      int_mod]
    exact beatmap_body_rt version b r h
  · simp only [wrBeatmap, if_neg hv, beatmap, condP, if_neg hv]
    exact beatmap_body_rt version b r h

theorem listing_rt (L : Listing) (r : List Nat) (h : validListing L = true) :
    listing (wrListing L ++ r) = some (r, L) := by
  simp only [validListing, Bool.and_eq_true, decide_eq_true_eq, and_assoc,
    List.all_eq_true] at h
  obtain ⟨hv, hfc, hub, hbl, hball, hup⟩ := h
  have hiv := fun r' => int_rt L.version r' hv
  have hifc := fun r' => int_rt L.folder_count r' hfc
  have hiup := fun r' => int_rt L.user_permissions r' hup
  have hdub := fun r' => datetime_rt (L.unban_date.getD 0) r' hub
  have hbm := fun r' => prefixedList_rt (fun bys => beatmap bys L.version)
    (wrBeatmap L.version) L.beatmaps r' hbl
    (fun x hx r'' => beatmap_rt L.version x r'' (hball x hx))
  simp only [listing, wrListing, List.append_assoc, List.cons_append,
    wrOptionU64_eq, bool_rt, build_option_norm0, opt_string_rt, hiv, hifc,
    hiup, hdub, hbm]

/-! ## Consumption lemmas: a successful action record always consumes input
(so nom's `many0` loop never hits its no-progress error) -/

theorem tagSeq_len (pat : List Nat) : ∀ (bytes r : List Nat) (u : Unit),
    tagSeq pat bytes = some (r, u) → r.length + pat.length = bytes.length := by
  induction pat with
  | nil =>
    intro bytes r u h
    simp only [tagSeq, Option.some.injEq, Prod.mk.injEq] at h
    obtain ⟨hr, -⟩ := h
    subst hr
    simp
  | cons t ts ih =>
    intro bytes r u h
    cases bytes with
    | nil => simp [tagSeq] at h
    | cons b rest =>
      simp only [tagSeq] at h
      by_cases hb : b = t
      · rw [if_pos hb] at h
        have := ih rest r u h
        simp only [List.length_cons]
        omega
      · rw [if_neg hb] at h
        cases h

theorem takeWhile_length_le (f : Nat → Bool) (l : List Nat) :
    (l.takeWhile f).length ≤ l.length := by
  induction l with
  | nil => simp
  | cons a t ih =>
    rw [List.takeWhile_cons]
    split
    · simp only [List.length_cons]
      omega
    · simp

theorem takeWhile1_len (f : Nat → Bool) (bytes r t : List Nat)
    (h : takeWhile1 f bytes = some (r, t)) : r.length < bytes.length := by
  simp only [takeWhile1] at h
  by_cases he : (bytes.takeWhile f).isEmpty
  · rw [if_pos he] at h
    cases h
  · rw [if_neg he] at h
    simp only [Option.some.injEq, Prod.mk.injEq] at h
    obtain ⟨hr, -⟩ := h
    subst hr
    have hpos : 0 < (bytes.takeWhile f).length := by
      cases htw : bytes.takeWhile f with
      | nil => rw [htw] at he; simp at he
      | cons a l => simp [htw]
    have hle := takeWhile_length_le f bytes
    simp only [List.length_drop]
    omega

theorem optP_len {α : Type} (p : Dec α)
    (hp : ∀ b r a, p b = some (r, a) → r.length ≤ b.length) :
    ∀ (bytes r : List Nat) (o : Option α),
    optP p bytes = some (r, o) → r.length ≤ bytes.length := by
  intro bytes r o h
  simp only [optP] at h
  split at h
  · simp only [Option.some.injEq, Prod.mk.injEq] at h
    obtain ⟨hr, -⟩ := h
    subst hr
    exact Nat.le_refl _
  · rename_i r2 a hq
    simp only [Option.some.injEq, Prod.mk.injEq] at h
    obtain ⟨hr, -⟩ := h
    subst hr
    exact hp bytes r2 a hq

theorem decimalPart_len (bytes r a : List Nat)
    (h : decimalPart bytes = some (r, a)) : r.length ≤ bytes.length := by
  simp only [decimalPart] at h
  split at h
  · cases h
  · rename_i r1 u h1
    split at h
    · cases h
    · rename_i r2 t h2
      have hl1 := tagSeq_len [46] bytes r1 u h1
      have hl2 := takeWhile1_len isDigit r1 r2 t h2
      simp only [Option.some.injEq, Prod.mk.injEq] at h
      obtain ⟨hr, -⟩ := h
      subst hr
      simp only [List.length_cons, List.length_nil] at hl1
      omega

theorem number_len (bytes r : List Nat) (q : Rat)
    (h : number bytes = some (r, q)) : r.length < bytes.length := by
  simp only [number] at h
  split at h
  · cases h
  · rename_i r1 sign h1
    have hl1 : r1.length ≤ bytes.length := by
      refine optP_len _ ?_ bytes r1 sign h1
      intro b rr a hh
      have := tagSeq_len [45] b rr a hh
      simp only [List.length_cons, List.length_nil] at this
      omega
    split at h
    · cases h
    · rename_i r2 whole h2
      have hl2 := takeWhile1_len isDigit r1 r2 whole h2
      split at h
      · cases h
      · rename_i r3 dec h3
        have hl3 : r3.length ≤ r2.length :=
          optP_len decimalPart decimalPart_len r2 r3 dec h3
        simp only [Option.some.injEq, Prod.mk.injEq] at h
        obtain ⟨hr, -⟩ := h
        subst hr
        omega

theorem actionRecord_len (bytes r : List Nat) (a : Action)
    (h : actionRecord bytes = some (r, a)) : r.length < bytes.length := by
  simp only [actionRecord] at h
  split at h
  · cases h
  · rename_i r1 d h1
    have hl1 := number_len bytes r1 d h1
    split at h
    · cases h
    · rename_i r2 u2 h2
      have hl2 := tagSeq_len [124] r1 r2 u2 h2
      split at h
      · cases h
      · rename_i r3 x h3
        have hl3 := number_len r2 r3 x h3
        split at h
        · cases h
        · rename_i r4 u4 h4
          have hl4 := tagSeq_len [124] r3 r4 u4 h4
          split at h
          · cases h
          · rename_i r5 y h5
            have hl5 := number_len r4 r5 y h5
            split at h
            · cases h
            · rename_i r6 u6 h6
              have hl6 := tagSeq_len [124] r5 r6 u6 h6
              split at h
              · cases h
              · rename_i r7 z h7
                have hl7 := number_len r6 r7 z h7
                split at h
                · cases h
                · rename_i r8 u8 h8
                  have hl8 := tagSeq_len [44] r7 r8 u8 h8
                  simp only [Option.some.injEq, Prod.mk.injEq] at h
                  obtain ⟨hr, -⟩ := h
                  subst hr
                  simp only [List.length_cons, List.length_nil] at hl2 hl4 hl6 hl8
                  omega

theorem actionsGo_ne (fuel : Nat) : ∀ bytes : List Nat,
    bytes.length < fuel → actionsGo fuel bytes ≠ none := by
  induction fuel with
  | zero => intro bytes h; omega
  | succ f ih =>
    intro bytes h
    simp only [actionsGo]
    split
    · simp
    · rename_i rest a hr
      have hc := actionRecord_len bytes rest a hr
      rw [if_pos hc]
      split
      · rename_i hgo
        exact absurd hgo (ih rest (by omega))
      · simp

theorem actions_ne_none (bytes : List Nat) : actions bytes ≠ none :=
  actionsGo_ne (bytes.length + 1) bytes (Nat.lt_succ_self _)

/-! ## Claim theorems -/

/-- C2: decoding one difficulty-rating record requires the literal lead byte
0x08 and, per version, the literal type tag 0x0d (then a 64-bit float) below
20250107 or 0x0c (then a 32-bit float widened to 64-bit) at/above it; a
wrong lead or tag byte makes the decode fail rather than return a misread
value. -/
theorem c2_star_rating_tags (v l t : Nat) (m0 m1 m2 m3 : Nat) (rest : List Nat) :
    (l ≠ 8 → star_rating (l :: rest) v = none) ∧
    (v < CHANGE_20250107 → t ≠ 13 →
      star_rating (8 :: m0 :: m1 :: m2 :: m3 :: t :: rest) v = none) ∧
    (CHANGE_20250107 ≤ v → t ≠ 12 →
      star_rating (8 :: m0 :: m1 :: m2 :: m3 :: t :: rest) v = none) ∧
    (∀ m sr, m < 2 ^ 32 → sr < 2 ^ 64 → v < CHANGE_20250107 →
      star_rating (8 :: (wrU32 m ++ 13 :: (wrU64 sr ++ rest))) v
        = some (rest, (m, sr))) ∧
    (∀ m sr, m < 2 ^ 32 → sr < 2 ^ 32 → CHANGE_20250107 ≤ v →
      star_rating (8 :: (wrU32 m ++ 12 :: (wrU32 sr ++ rest))) v
        = some (rest, (m, f32to64 sr))) := by
  refine ⟨?_, ?_, ?_, ?_, ?_⟩
  · intro hl
    simp [star_rating, tagSeq, hl]
  · intro hv ht
    simp [star_rating, tagSeq, int, ht, hv]
  · intro hv ht
    have hnv : ¬ v < CHANGE_20250107 := not_lt.mpr hv
    simp [star_rating, tagSeq, int, ht, hnv]
  · intro m sr hm hs hv
    have hi := fun r' => int_rt m r' hm
    have hd := fun r' => double_rt sr r' hs
    simp [star_rating, tagSeq, hi, hd, hv]
  · intro m sr hm hs hv
    have hnv : ¬ v < CHANGE_20250107 := not_lt.mpr hv
    have hi := fun r' => int_rt m r' hm
    have hsg := fun r' => single_rt sr r' hs
    simp [star_rating, tagSeq, hi, hsg, hnv]

/-- C2 witness: concrete instances of every part of `c2_star_rating_tags`
at versions on both sides of 20250107. -/
theorem c2_star_rating_tags_witness :
    star_rating [7, 0, 0, 0, 0, 13] 20200101 = none ∧
    star_rating [8, 1, 0, 0, 0, 12, 0] 20200101 = none ∧
    star_rating [8, 1, 0, 0, 0, 13, 0] 20250107 = none ∧
    star_rating (8 :: (wrU32 576 ++ 13 :: (wrU64 4617315517961601024 ++ [5]))) 20200101
      = some ([5], (576, 4617315517961601024)) ∧
    star_rating (8 :: (wrU32 8 ++ 12 :: (wrU32 1069547520 ++ [5]))) 20250107
      = some ([5], (8, f32to64 1069547520)) := by
  refine ⟨?_, ?_, ?_, ?_, ?_⟩
  · exact (c2_star_rating_tags 20200101 7 13 0 0 0 0 []).1 (by decide)
  · exact (c2_star_rating_tags 20200101 8 12 1 0 0 0 [0]).2.1 (by decide) (by decide)
  · exact (c2_star_rating_tags 20250107 8 13 1 0 0 0 [0]).2.2.1 (by decide) (by decide)
  · exact (c2_star_rating_tags 20200101 8 0 0 0 0 0 [5]).2.2.2.1 576
      4617315517961601024 (by decide) (by decide) (by decide)
  · exact (c2_star_rating_tags 20250107 8 0 0 0 0 0 [5]).2.2.2.2 8 1069547520
      (by decide) (by decide) (by decide)

/-- C4: below version 20140609 the star-rating writer emits zero bytes even
for a non-empty table, and the decoder consumes zero bytes and yields an
empty table rather than an error. -/
theorem c4_ratings_epoch_gating (v : Nat) (l : List (Nat × Nat))
    (bytes : List Nat) (h : v < CHANGE_20140609) :
    wrStarRatings v l = [] ∧ star_ratings bytes v = some (bytes, []) := by
  have hn : ¬ CHANGE_20140609 ≤ v := not_le.mpr h
  exact ⟨by simp [wrStarRatings, hn], by simp [star_ratings, hn]⟩

/-- C4 witness: a non-empty table at a pre-20140609 version. -/
theorem c4_ratings_epoch_gating_witness :
    wrStarRatings 20100101 [(1, 2), (3, 4)] = [] ∧
    star_ratings [9, 9] 20100101 = some ([9, 9], []) :=
  c4_ratings_epoch_gating 20100101 [(1, 2), (3, 4)] [9, 9] (by decide)

/-- C5: `write_option` encodes `None` as flag true (true means absent) plus
the placeholder timestamp 0 and `Some t` as flag false plus `t`; on decode,
any nonzero flag byte yields `None` no matter which eight timestamp bytes
follow (they are read and discarded), exercised here on the unban-date field
of the full `listing` decoder. -/
theorem c5_option_collapsing (t d0 d1 d2 d3 d4 d5 d6 d7 : Nat)
    (ver fc b perm : Nat) (pn : Option (List Nat)) (rest : List Nat)
    (hb : b ≠ 0) :
    wrOptionU64 none = wrBool true ++ wrU64 0 ∧
    wrOptionU64 (some t) = wrBool false ++ wrU64 t ∧
    build_option true t = (none : Option Nat) ∧
    listing (wrU32 ver ++ wrU32 fc ++
        (b :: d0 :: d1 :: d2 :: d3 :: d4 :: d5 :: d6 :: d7 ::
          (wrOptString pn ++ wrU32 0 ++ wrU32 perm ++ rest)))
      = some (rest,
        { version := ver % 2 ^ 32, folder_count := fc % 2 ^ 32,
          unban_date := none, player_name := pn, beatmaps := [],
          user_permissions := perm % 2 ^ 32 }) := by
  have hb' : (b != 0) = true := by simp [hb]
  refine ⟨rfl, rfl, rfl, ?_⟩
  simp only [listing, List.append_assoc, int_mod, boolean, datetime, long,
    lengthCount, readN, opt_string_rt, hb', build_option, if_true,
    Nat.zero_mod]
  norm_num

/-- C5 witness: concrete nonzero flag byte with nonzero timestamp bytes. -/
theorem c5_option_collapsing_witness :
    wrOptionU64 none = wrBool true ++ wrU64 0 ∧
    wrOptionU64 (some 9) = wrBool false ++ wrU64 9 ∧
    build_option true 9 = (none : Option Nat) ∧
    listing (wrU32 20200101 ++ wrU32 3 ++
        (1 :: 8 :: 7 :: 6 :: 5 :: 4 :: 3 :: 2 :: 1 ::
          (wrOptString (some [112]) ++ wrU32 0 ++ wrU32 4 ++ [77])))
      = some ([77],
        { version := 20200101 % 2 ^ 32, folder_count := 3 % 2 ^ 32,
          unban_date := none, player_name := some [112], beatmaps := [],
          user_permissions := 4 % 2 ^ 32 }) :=
  c5_option_collapsing 9 8 7 6 5 4 3 2 1 20200101 3 1 4 (some [112]) [77]
    (by decide)

/-- C6: the difficulty-value sub-rule: at/above version 20140609 decoding is
exactly the 32-bit float reader and encoding emits the float as-is; below it
decoding reads one byte and widens it to f32, and encoding narrows the f32
to one byte. The beatmap codec applies this rule to each of the four stats
through these same two functions. -/
theorem c6_difficulty_width (v x : Nat) :
    (CHANGE_20140609 ≤ v →
      (∀ bytes, difficulty_value bytes v = single bytes) ∧
      wrDifficultyValue v x = wrU32 x) ∧
    (v < CHANGE_20140609 →
      (∀ b rest, difficulty_value (b :: rest) v = some (rest, u8ToF32bits b)) ∧
      wrDifficultyValue v x = wrU8 (f32bitsToU8 x)) := by
  constructor
  · intro hv
    exact ⟨fun bytes => by simp [difficulty_value, hv],
      by simp [wrDifficultyValue, hv]⟩
  · intro hv
    have hn : ¬ CHANGE_20140609 ≤ v := not_le.mpr hv
    refine ⟨fun b rest => ?_, by simp [wrDifficultyValue, hn]⟩
    simp [difficulty_value, hn, byte]

/-- C6 witness: both epochs at concrete values. -/
theorem c6_difficulty_width_witness :
    difficulty_value [0, 0, 128, 63] 20140609 = single [0, 0, 128, 63] ∧
    wrDifficultyValue 20140609 1065353216 = wrU32 1065353216 ∧
    difficulty_value [5] 20100101 = some ([], u8ToF32bits 5) ∧
    wrDifficultyValue 20100101 (u8ToF32bits 7) = wrU8 (f32bitsToU8 (u8ToF32bits 7)) := by
  refine ⟨?_, ?_, ?_, ?_⟩
  · exact ((c6_difficulty_width 20140609 0).1 (by decide)).1 [0, 0, 128, 63]
  · exact ((c6_difficulty_width 20140609 1065353216).1 (by decide)).2
  · exact ((c6_difficulty_width 20100101 0).2 (by decide)).1 5 []
  · exact ((c6_difficulty_width 20100101 (u8ToF32bits 7)).2 (by decide)).2

/-- C9 counterexample: the claim describes the rejected byte values as
exactly code 8 (for Grade) plus every value above 7 except 9; but
`RankedStatus::from_raw` also rejects code 3 (which is not above 7), and it
rejects code 9 as well. -/
theorem c9_counterexample :
    RankedStatus.from_raw 3 = none ∧ RankedStatus.from_raw 9 = none := by
  decide

set_option maxRecDepth 100000 in
/-- C9 (amended): every wire code round-trips through `from_raw`/`raw` for
both enumerations; `Grade.from_raw` rejects exactly code 8 and every byte
above 9, while `RankedStatus.from_raw` rejects exactly code 3 and every
byte above 7 (9 included). -/
theorem c9_grade_status_codes :
    (∀ g : Grade, Grade.from_raw g.raw = some g) ∧
    (∀ st : RankedStatus, RankedStatus.from_raw st.raw = some st) ∧
    (∀ b : Nat, b < 256 → (Grade.from_raw b = none ↔ b = 8 ∨ 9 < b)) ∧
    (∀ b : Nat, b < 256 → (RankedStatus.from_raw b = none ↔ b = 3 ∨ 7 < b)) := by
  refine ⟨fun g => by cases g <;> rfl, fun st => by cases st <;> rfl, ?_, ?_⟩
  · decide
  · decide

/-- C9 witness: the rejection characterization applied at concrete bytes. -/
theorem c9_grade_status_codes_witness :
    Grade.from_raw 8 = none ∧ RankedStatus.from_raw 10 = none := by
  exact ⟨(c9_grade_status_codes.2.2.1 8 (by decide)).mpr (Or.inl rfl),
    (c9_grade_status_codes.2.2.2 10 (by decide)).mpr (Or.inr (by decide))⟩

/-- C1: for every listing whose field contents are consistent with its
version field (`validListing`), writing it with the `Listing` writer and
decoding the bytes with `Listing::from_bytes` returns the identical listing,
at every version (hence in particular below and at/above each of the three
epoch thresholds 20140609, 20191106, 20250107). -/
theorem c1_listing_roundtrip (L : Listing) (h : validListing L = true) :
    Listing.from_bytes (wrListing L) = some L := by
  have hrt := listing_rt L [] h
  rw [List.append_nil] at hrt
  simp [Listing.from_bytes, hrt]

set_option maxRecDepth 100000 in
/-- C1 witness: the round-trip at one representative version in each of the
four epochs cut by the thresholds 20140609, 20191106 and 20250107, each on a
listing with a populated beatmap. -/
theorem c1_listing_roundtrip_witness :
    (validListing TL1 = true ∧ Listing.from_bytes (wrListing TL1) = some TL1) ∧
    (validListing TL2 = true ∧ Listing.from_bytes (wrListing TL2) = some TL2) ∧
    (validListing TL3 = true ∧ Listing.from_bytes (wrListing TL3) = some TL3) ∧
    (validListing TL4 = true ∧ Listing.from_bytes (wrListing TL4) = some TL4) := by
  have h1 : validListing TL1 = true := by decide
  have h2 : validListing TL2 = true := by decide
  have h3 : validListing TL3 = true := by decide
  have h4 : validListing TL4 = true := by decide
  exact ⟨⟨h1, c1_listing_roundtrip TL1 h1⟩, ⟨h2, c1_listing_roundtrip TL2 h2⟩,
    ⟨h3, c1_listing_roundtrip TL3 h3⟩, ⟨h4, c1_listing_roundtrip TL4 h4⟩⟩

theorem sentinel_ne (p0 p1 p2 p3 : Nat) (rest : List Nat)
    (h : p0 ≠ 255 ∨ p1 ≠ 255 ∨ p2 ≠ 255 ∨ p3 ≠ 255) :
    tagSeq [255, 255, 255, 255] (p0 :: p1 :: p2 :: p3 :: rest) = none := by
  rcases h with h | h | h | h <;> simp [tagSeq, h]

/-- C3: decoding a replay with `standalone = false` succeeds only when the
four bytes at the payload position are exactly the sentinel `0xFFFFFFFF`
(yielding `replay_data = none`) and fails on any other four bytes; with
`standalone = true` it accepts any well-formed 32-bit length-prefixed
payload block (given the external decompressor and action grammar accept its
contents), a zero-length block decoding to the empty action list. -/
theorem c3_replay_payload_modes (decomp : List Nat → Option (List Nat))
    (R : Replay) (oid : Nat) (hR : validReplayHeader R = true)
    (hoid : oid < 2 ^ 64) :
    (∀ rest, replay decomp
        (hdrBytes R ++ [255, 255, 255, 255] ++ wrU64 oid ++ rest) false
      = some (rest, { R with replay_data := none, online_score_id := oid })) ∧
    (∀ p0 p1 p2 p3 rest, (p0 ≠ 255 ∨ p1 ≠ 255 ∨ p2 ≠ 255 ∨ p3 ≠ 255) →
      replay decomp (hdrBytes R ++ p0 :: p1 :: p2 :: p3 :: rest) false = none) ∧
    (∀ blk txt remT acts rest, blk.length < 2 ^ 32 →
      decomp blk = some txt → actions txt = some (remT, acts) →
      replay decomp (hdrBytes R ++ wrU32 blk.length ++ blk ++ wrU64 oid ++ rest) true
        = some (rest, { R with replay_data := some acts, online_score_id := oid })) ∧
    (decomp [] = some [] → ∀ rest,
      replay decomp (hdrBytes R ++ wrU32 0 ++ wrU64 oid ++ rest) true
        = some (rest, { R with replay_data := some [], online_score_id := oid })) := by
  simp only [validReplayHeader, Bool.and_eq_true, decide_eq_true_eq,
    and_assoc] at hR
  obtain ⟨hv, h3, h1, h5, hg, hk, hm, hsc, hmx, hmd, hts⟩ := hR
  have hvr := fun r' => int_rt R.version r' hv
  have hc1 := fun r' => short_rt R.count_300 r' h3
  have hc2 := fun r' => short_rt R.count_100 r' h1
  have hc3 := fun r' => short_rt R.count_50 r' h5
  have hc4 := fun r' => short_rt R.count_geki r' hg
  have hc5 := fun r' => short_rt R.count_katsu r' hk
  have hc6 := fun r' => short_rt R.count_miss r' hm
  have hsc' := fun r' => int_rt R.score r' hsc
  have hmx' := fun r' => short_rt R.max_combo r' hmx
  have hmd' := fun r' => int_rt R.mods r' hmd
  have hts' := fun r' => datetime_rt R.timestamp r' hts
  have hoid' := fun r' => long_rt oid r' hoid
  have hstd : ∀ blk txt remT acts rest, blk.length < 2 ^ 32 →
      decomp blk = some txt → actions txt = some (remT, acts) →
      replay decomp (hdrBytes R ++ wrU32 blk.length ++ blk ++ wrU64 oid ++ rest) true
        = some (rest, { R with replay_data := some acts, online_score_id := oid }) := by
    intro blk txt remT acts rest hlen hdc ha
    have hib := fun r' => int_rt blk.length r' hlen
    have htl : blk.length ≤ (blk ++ (wrU64 oid ++ rest)).length := by
      simp [List.length_append]
    simp [replay, hdrBytes, replay_data, List.append_assoc, List.cons_append,
      mode_rt, hvr, opt_string_rt, hc1, hc2, hc3, hc4, hc5, hc6, hsc', hmx',
      bool_rt, hmd', hts', hib, htl, List.take_left, List.drop_left, hdc, ha,
      hoid']
  refine ⟨?_, ?_, hstd, ?_⟩
  · intro rest
    simp [replay, hdrBytes, List.append_assoc, List.cons_append, mode_rt,
      hvr, opt_string_rt, hc1, hc2, hc3, hc4, hc5, hc6, hsc', hmx', bool_rt,
      hmd', hts', tagSeq, hoid']
  · intro p0 p1 p2 p3 rest hne
    simp [replay, hdrBytes, List.append_assoc, List.cons_append, mode_rt,
      hvr, opt_string_rt, hc1, hc2, hc3, hc4, hc5, hc6, hsc', hmx', bool_rt,
      hmd', hts', sentinel_ne p0 p1 p2 p3 rest hne]
  · intro hdec rest
    have := hstd [] [] [] [] rest (by decide) hdec (by decide)
    simpa using this

set_option maxRecDepth 100000 in
/-- C3 witness: the three payload behaviors at a concrete replay. -/
theorem c3_replay_payload_modes_witness :
    (replay (fun b => some b)
        (hdrBytes testReplay ++ [255, 255, 255, 255] ++ wrU64 7 ++ []) false
      = some ([], { testReplay with replay_data := none, online_score_id := 7 })) ∧
    (replay (fun b => some b)
        (hdrBytes testReplay ++ 0 :: 1 :: 2 :: 3 :: []) false = none) ∧
    (replay (fun b => some b)
        (hdrBytes testReplay ++ wrU32 0 ++ wrU64 7 ++ []) true
      = some ([], { testReplay with replay_data := some [], online_score_id := 7 })) := by
  have hh := c3_replay_payload_modes (fun b => some b) testReplay 7
    (by decide) (by decide)
  exact ⟨hh.1 [], hh.2.1 0 1 2 3 [] (Or.inl (by decide)), hh.2.2.2 rfl []⟩

/-- C7: the low-level replay writer emits the 4-byte `0xFFFFFFFF` sentinel
in place of the payload whenever the compression-level argument is `none`
(whatever `replay_data` holds), and with `some level` it always emits a
32-bit length-prefixed compressed payload block, an absent `replay_data`
being encoded as the compression of the empty action text rather than as
the sentinel. -/
theorem c7_writer_compression_branch (compress : Nat → List Nat → List Nat)
    (fmt : Action → List Nat) (R : Replay) :
    (wrReplay compress fmt R none
      = hdrBytes R ++ [255, 255, 255, 255] ++ wrU64 R.online_score_id) ∧
    (∀ level, wrReplay compress fmt R (some level)
      = hdrBytes R ++
        (wrU32 (compress level (wrList fmt (R.replay_data.getD []))).length ++
          compress level (wrList fmt (R.replay_data.getD []))) ++
        wrU64 R.online_score_id) ∧
    (∀ level, wrReplay compress fmt { R with replay_data := none } (some level)
      = hdrBytes R ++
        (wrU32 (compress level []).length ++ compress level []) ++
        wrU64 R.online_score_id) := by
  refine ⟨rfl, fun level => rfl, fun level => rfl⟩

/-- C8 counterexample: the payload text `"1"` is a record missing every
`|` separator, yet the action-stream decode succeeds (returning the empty
list and leaving the malformed byte unconsumed), and the whole standalone
Replay decode around it succeeds as well — the claim says both must fail. -/
theorem c8_counterexample :
    actions [49] = some ([49], []) ∧
    replay (fun b => some b)
      (hdrBytes testReplay ++ wrU32 1 ++ [49] ++ wrU64 0) true
      = some ([], { testReplay with replay_data := some [], online_score_id := 0 }) := by
  constructor
  · decide
  · decide

set_option maxRecDepth 100000 in
unseal Rat.add Rat.mul Rat.inv Rat.sub in
/-- C8 (amended): a malformed record does not abort the action-stream
decode: the parser never fails — it returns the actions of the longest
well-formed record prefix and silently leaves the malformed remainder
unconsumed (which `replay_data` then discards), and the enclosing Replay
decode succeeds with that partial action list. -/
theorem c8_actions_no_abort :
    (∀ bytes, actions bytes ≠ none) ∧
    actions [49, 124, 50, 124, 51, 124, 52, 44, 53]
      = some ([53], [{ delta := 1, x := 2, y := 3, z := 4 }]) ∧
    replay (fun b => some b)
      (hdrBytes testReplay ++ wrU32 9 ++
        [49, 124, 50, 124, 51, 124, 52, 44, 53] ++ wrU64 0) true
      = some ([], { testReplay with
          replay_data := some [{ delta := 1, x := 2, y := 3, z := 4 }],
          online_score_id := 0 }) := by
  refine ⟨actions_ne_none, by decide, by decide⟩


/-- C8 witness: the never-fails part of `c8_actions_no_abort` applied at
concrete inputs. -/
theorem c8_actions_no_abort_witness :
    actions [] ≠ none ∧ actions [46, 46] ≠ none :=
  ⟨c8_actions_no_abort.1 [], c8_actions_no_abort.1 [46, 46]⟩

/-- C10: the public `Replay::to_writer` replaces a `none` compression level
with `Some DEFAULT_COMPRESSION_LEVEL` (= 5) before invoking the low-level
writer, so the public write path always emits a length-prefixed payload
block and never takes the sentinel branch (which stays reachable only via
the crate-internal writer called with an explicit `none`). -/
theorem c10_public_writer_default (compress : Nat → List Nat → List Nat)
    (fmt : Action → List Nat) (R : Replay) (cl : Option Nat) :
    DEFAULT_COMPRESSION_LEVEL = 5 ∧
    Replay.to_writer compress fmt R cl
      = wrReplay compress fmt R (some (cl.getD DEFAULT_COMPRESSION_LEVEL)) ∧
    (∃ raw : List Nat, Replay.to_writer compress fmt R cl
      = hdrBytes R ++ (wrU32 raw.length ++ raw) ++ wrU64 R.online_score_id) :=
  ⟨rfl, rfl,
    ⟨compress (cl.getD DEFAULT_COMPRESSION_LEVEL)
      (wrList fmt (R.replay_data.getD [])), rfl⟩⟩

end OsuDb
